/- Verification of the RFP document manager (models.py, utils.py, app.py).

   Shallow embedding: the pydantic `RFPDocument` model becomes a Lean
   structure; JSON values become an inductive type; `save_documents` is
   modelled as the JSON document it writes (a `json.dump` of
   `model_dump()` dictionaries) and `load_documents` as a function from
   the possible persisted file states (missing file, file whose content
   fails `json.loads`, or a parsed JSON value) to `Except`, where
   `Except.error` models an uncaught Python exception propagating out of
   the function.  `get_completion` is modelled from the point where the
   model response is in hand: the assistant message (tool calls and text
   content) is an explicit input, with each tool call carrying the parse
   outcome of `json.loads` on its raw argument string (`none` models a
   string that is not valid JSON, where `json.loads` raises). -/
import Mathlib

/-- The `RFPDocument` pydantic model (models.py): `id` is an optional
integer, `title` and `company` are required strings, the remaining five
fields are optional strings defaulting to `None`. -/
structure RFPDocument where
  id : Option Int
  title : String
  company : String
  description : Option String
  requirements : Option String
  contact : Option String
  deadline : Option String
  budget : Option String
deriving DecidableEq, Repr

/-- JSON values as produced by `json.loads` / consumed by `json.dump`
(floats are not modelled; no field of this application produces them). -/
inductive Json where
| jnull : Json
| jbool : Bool → Json
| jint : Int → Json
| jstr : String → Json
| jarr : List Json → Json
| jobj : List (String × Json) → Json
deriving Repr

/-- Python truthiness of a decoded JSON value (`if ids:` in utils.py). -/
def pyTruthy : Json → Bool
| .jnull => false
| .jbool b => b
| .jint n => !(n == 0)
| .jstr s => !(s == "")
| .jarr l => !l.isEmpty
| .jobj kvs => !kvs.isEmpty

/-- Python equality `doc.id == doc_id` between an `Optional[int]` field
and a JSON-decoded value: ints compare numerically, `True`/`False`
compare as `1`/`0`, `None == None` is `True`, every mixed case is
`False`. -/
def pyEqIdJson : Option Int → Json → Bool
| some n, .jint m => n == m
| some n, .jbool b => n == (if b then (1 : Int) else 0)
| none, .jnull => true
| _, _ => false

mutual
/-- Python `str()` of a decoded JSON value, as interpolated by the
f-string `f"Document with ID {doc_id} not found."`.  Scalars are exact;
for containers the element rendering is abbreviated (Python would use
`repr` quoting), which no theorem below relies on. -/
def pyStr : Json → String
| .jnull => "None"
| .jbool b => if b then "True" else "False"
| .jint n => toString n
| .jstr s => s
| .jarr l => "[" ++ pyStrList l ++ "]"
| .jobj kvs => "\x7b" ++ pyStrObj kvs ++ "\x7d"

def pyStrList : List Json → String
| [] => ""
| [j] => pyStr j
| j :: js => pyStr j ++ ", " ++ pyStrList js

def pyStrObj : List (String × Json) → String
| [] => ""
| [kv] => kv.1 ++ ": " ++ pyStr kv.2
| kv :: kvs => kv.1 ++ ": " ++ pyStr kv.2 ++ ", " ++ pyStrObj kvs
end

/-- The whitespace characters stripped by Python `str.strip()`. -/
def pyWs (c : Char) : Bool :=
  c == ' ' || c == '\t' || c == '\n' || c == '\r' || c == '\x0b' || c == '\x0c'

/-- Python `str.strip()`: remove leading and trailing whitespace. -/
def pyStrip (s : String) : String :=
  String.mk (((s.data.dropWhile pyWs).reverse.dropWhile pyWs).reverse)

/-- Concatenation of a list of strings in order (the accumulated value of
a Python `result += piece` loop). -/
def strConcat : List String → String
| [] => ""
| s :: ss => s ++ strConcat ss

/-- Python `max(gen, default=d)`: the default is returned only when
the iterable is empty, otherwise the genuine maximum. -/
def pyMaxDefault (d : Int) : List Int → Int
| [] => d
| x :: xs => xs.foldl max x

/-- utils.py `get_next_id`: `1` for an empty list, otherwise
`max((doc.id for doc in documents if doc.id is not None), default=0) + 1`. -/
def get_next_id (documents : List RFPDocument) : Int :=
  if documents.isEmpty then 1
  else pyMaxDefault 0 (documents.filterMap RFPDocument.id) + 1

/-- Encoding of an `Optional[int]` by `model_dump()` + `json.dump`. -/
def optIntJson : Option Int → Json
| none => .jnull
| some n => .jint n

/-- Encoding of an `Optional[str]` by `model_dump()` + `json.dump`. -/
def optStrJson : Option String → Json
| none => .jnull
| some s => .jstr s

/-- The result of `doc.model_dump()` serialized by `json.dump`: an object holding every
field in declaration order, absent optional fields as explicit `null`. -/
def dumpDoc (d : RFPDocument) : Json :=
  .jobj [("id", optIntJson d.id), ("title", .jstr d.title),
    ("company", .jstr d.company), ("description", optStrJson d.description),
    ("requirements", optStrJson d.requirements),
    ("contact", optStrJson d.contact), ("deadline", optStrJson d.deadline),
    ("budget", optStrJson d.budget)]

/-- utils.py `save_documents`, modelled as the JSON document it writes:
`json.dump([doc.model_dump() for doc in documents], f, ...)`. -/
def save_documents (documents : List RFPDocument) : Json :=
  .jarr (documents.map dumpDoc)

/-- Lookup of a key in a decoded JSON object (Python `dict` access). -/
def jget (kvs : List (String × Json)) (k : String) : Option Json :=
  (kvs.find? (fun kv => kv.1 == k)).map Prod.snd

/-- The keys of a JSON object. -/
def jsonKeys : Json → List String
| .jobj kvs => kvs.map Prod.fst
| _ => []

/-- Lookup of a key inside a JSON object value. -/
def jlookup (j : Json) (k : String) : Option Json :=
  match j with
  | .jobj kvs => jget kvs k
  | _ => none

/-- pydantic validation of an `Optional[int]` field: missing key or
`null` gives `None`, an int is accepted, any other type raises
`ValidationError` (lax numeric-string coercion is not modelled; no
theorem below exercises it). -/
def parseOptInt : Option Json → Except String (Option Int)
| none => .ok none
| some .jnull => .ok none
| some (.jint n) => .ok (some n)
| some _ => .error "ValidationError"

/-- pydantic validation of an `Optional[str]` field. -/
def parseOptStr : Option Json → Except String (Option String)
| none => .ok none
| some .jnull => .ok none
| some (.jstr s) => .ok (some s)
| some _ => .error "ValidationError"

/-- pydantic validation of a required `str` field: missing, `null` or a
non-string all raise `ValidationError`. -/
def parseReqStr : Option Json → Except String String
| some (.jstr s) => .ok s
| _ => .error "ValidationError"

/-- The call `RFPDocument(**doc)` on one decoded JSON value: a non-mapping raises
`TypeError` (from `**`), a mapping is validated field by field (extra
keys are ignored, the pydantic default). -/
def docOfJson : Json → Except String RFPDocument
| .jobj kvs => do
  let id ← parseOptInt (jget kvs "id")
  let title ← parseReqStr (jget kvs "title")
  let company ← parseReqStr (jget kvs "company")
  let description ← parseOptStr (jget kvs "description")
  let requirements ← parseOptStr (jget kvs "requirements")
  let contact ← parseOptStr (jget kvs "contact")
  let deadline ← parseOptStr (jget kvs "deadline")
  let budget ← parseOptStr (jget kvs "budget")
  pure ⟨id, title, company, description, requirements, contact, deadline, budget⟩
| _ => .error "TypeError"

/-- The comprehension `[RFPDocument(**doc) for doc in data]` over a
decoded JSON list, left to right; the first validation failure
propagates. -/
def loadList : List Json → Except String (List RFPDocument)
| [] => .ok []
| j :: js => do
  let d ← docOfJson j
  let ds ← loadList js
  pure (d :: ds)

/-- The possible persisted states of `rfp_documents.json`: no file, a
file whose content makes `json.loads` raise `JSONDecodeError`, or a file
holding a parsed JSON value. -/
inductive FileState where
| missing : FileState
| invalidJson : FileState
| content : Json → FileState

/-- utils.py `load_documents`: `[]` when the file is missing; the
`except (json.JSONDecodeError, FileNotFoundError)` clause turns a JSON
parse failure into `[]`; a decoded value is iterated and each element
passed to `RFPDocument(**doc)`, whose `TypeError` / pydantic
`ValidationError` are NOT caught and propagate.  Iterating a decoded
dict yields its keys and a decoded string its characters, so any
nonempty one raises `TypeError` at `RFPDocument(**doc)`; a decoded
scalar is not iterable and raises `TypeError` at the `for`. -/
def load_documents : FileState → Except String (List RFPDocument)
| .missing => .ok []
| .invalidJson => .ok []
| .content j =>
  match j with
  | .jarr l => loadList l
  | .jobj kvs => if kvs.isEmpty then .ok [] else .error "TypeError"
  | .jstr s => if s == "" then .ok [] else .error "TypeError"
  | _ => .error "TypeError"

/-- utils.py `extract_rfp_info`, modelled from the point where the
schema-constrained model call has produced its parsed structured output
(`completion.choices[0].message.parsed`, an external input here): the
function returns that parsed record unchanged. -/
def extract_rfp_info (parsed : RFPDocument) : RFPDocument :=
  parsed

/-- The ingestion step of app.py (upload handler): extract, then assign
`rfp_doc.id = get_next_id(st.session_state.documents)`, then append the
record to the document list.  Returns the new list and the appended
record. -/
def process_upload (documents : List RFPDocument) (parsed : RFPDocument) :
    List RFPDocument × RFPDocument :=
  let rfp_doc := extract_rfp_info parsed
  let assigned := { rfp_doc with id := some (get_next_id documents) }
  (documents ++ [assigned], assigned)

/-- The line `if doc.description:` etc.: Python truthiness of an
`Optional[str]` field, false for `None` and for the empty string. -/
def truthyOptStr : Option String → Bool
| none => false
| some s => !(s == "")

/-- The string value of a truthy `Optional[str]` as interpolated in the
f-strings of `show_document_summary` (only reached when truthy). -/
def optStrVal : Option String → String
| none => ""
| some s => s

/-- utils.py `show_document_summary`: title and company always, then one
`**Label:** value` line per truthy optional field, in source order. -/
def show_document_summary (doc : RFPDocument) : String :=
  let summary := "### " ++ doc.title ++ "\n\n"
  let summary := summary ++ "**Company:** " ++ doc.company ++ "\n\n"
  let summary := if truthyOptStr doc.description then
    summary ++ "**Description:** " ++ optStrVal doc.description ++ "\n\n" else summary
  let summary := if truthyOptStr doc.requirements then
    summary ++ "**Requirements:** " ++ optStrVal doc.requirements ++ "\n\n" else summary
  let summary := if truthyOptStr doc.contact then
    summary ++ "**Contact:** " ++ optStrVal doc.contact ++ "\n\n" else summary
  let summary := if truthyOptStr doc.deadline then
    summary ++ "**Deadline:** " ++ optStrVal doc.deadline ++ "\n\n" else summary
  let summary := if truthyOptStr doc.budget then
    summary ++ "**Budget:** " ++ optStrVal doc.budget ++ "\n\n" else summary
  summary

/-- The loop local `doc_id = doc.id if doc.id is not None else "N/A"`,
as rendered by the row f-string (`str()` of the int when present). -/
def idCell (doc : RFPDocument) : String :=
  match doc.id with
  | some n => toString n
  | none => "N/A"

/-- The loop local `title = doc.title if doc.title else "N/A"`. -/
def titleCell (doc : RFPDocument) : String :=
  if doc.title == "" then "N/A" else doc.title

/-- The loop local `company = doc.company if doc.company else "N/A"`. -/
def companyCell (doc : RFPDocument) : String :=
  if doc.company == "" then "N/A" else doc.company

/-- The loop local `deadline = doc.deadline if doc.deadline else "N/A"`:
`None` and the empty string are both falsy. -/
def deadlineCell (doc : RFPDocument) : String :=
  match doc.deadline with
  | some s => if s == "" then "N/A" else s
  | none => "N/A"

/-- One table row: `f"| {doc_id} | {title} | {company} | {deadline} |\n"`. -/
def rowFor (doc : RFPDocument) : String :=
  "| " ++ idCell doc ++ " | " ++ titleCell doc ++ " | " ++ companyCell doc
    ++ " | " ++ deadlineCell doc ++ " |\n"

/-- The two header lines of the Markdown table. -/
def tableHeader : String :=
  "| ID | Title | Company | Deadline |\n" ++ "|---|---|---|---|\n"

/-- utils.py `show_document_table`: the fixed message for an empty list,
otherwise the header pair followed by one row per document, accumulated
with `table += ...`. -/
def show_document_table (docs : List RFPDocument) : String :=
  if docs.isEmpty then "No documents available."
  else docs.foldl (fun t d => t ++ rowFor d) tableHeader

/-- One tool call of the assistant message.  `arguments` is the outcome
of `json.loads(tool_call.function.arguments)`: `none` models a raw
argument string that is not valid JSON, on which `json.loads` raises. -/
structure ToolCall where
  name : String
  arguments : Option Json

/-- The assistant message returned by the chat completion: its (possibly
empty) tool-call list and its optional text content. -/
structure AssistantMessage where
  tool_calls : List ToolCall
  content : Option String

/-- The expression `assistant_message.content or "No response generated."`: Python `or`
falls through to the fallback for `None` and for the empty string. -/
def contentOr : Option String → String
| none => "No response generated."
| some c => if c == "" then "No response generated." else c

/-- The expression `function_args.get("ids", [])`: a dict lookup with default `[]`; on
any non-dict decoded value `.get` raises `AttributeError`. -/
def dictGet (args : Json) (k : String) (dflt : Json) : Except String Json :=
  match args with
  | .jobj kvs => .ok ((jget kvs k).getD dflt)
  | _ => .error "AttributeError"

/-- Iteration `for doc_id in ids:` on a decoded JSON value: lists yield their
elements, strings their characters, dicts their keys; scalars are not
iterable and raise `TypeError`. -/
def pyIter : Json → Except String (List Json)
| .jarr l => .ok l
| .jstr s => .ok (s.data.map (fun c => .jstr (String.singleton c)))
| .jobj kvs => .ok (kvs.map (fun kv => .jstr kv.1))
| _ => .error "TypeError"

/-- Membership `d.id in ids` on a decoded JSON value: list membership and dict-key
membership use `==` element by element; `in` on a string with a non-str
left operand raises `TypeError`, as does `in` on a scalar. -/
def pyIn (oi : Option Int) : Json → Except String Bool
| .jarr l => .ok (l.any (fun j => pyEqIdJson oi j))
| .jobj kvs => .ok (kvs.any (fun kv => pyEqIdJson oi (.jstr kv.1)))
| _ => .error "TypeError"

/-- The comprehension `[d for d in documents if d.id in ids]`, left to
right; a `TypeError` from the membership test propagates. -/
def pyFilterMem (documents : List RFPDocument) (ids : Json) :
    Except String (List RFPDocument) :=
  match documents with
  | [] => .ok []
  | d :: ds => do
    let b ← pyIn d.id ids
    let rest ← pyFilterMem ds ids
    pure (if b then d :: rest else rest)

/-- One iteration of the summary loop: find the first document whose id
equals `doc_id` (the `next(...)` expression); append its summary plus
the `"\n---\n\n"` separator, or the not-found line. -/
def summaryEntry (documents : List RFPDocument) (doc_id : Json) : String :=
  match documents.find? (fun d => pyEqIdJson d.id doc_id) with
  | some d => show_document_summary d ++ "\n---\n\n"
  | none => "Document with ID " ++ pyStr doc_id ++ " not found.\n\n"

/-- utils.py `get_completion`, from the assistant message onward.  If the
message carries tool calls, the first one is taken; its arguments are
`json.loads`-parsed (raising on invalid JSON), the store is re-loaded
from disk (a load exception propagates), and the named tool is
dispatched: the summary loop with final `.strip()`, or the table branch
with its truthiness test on `ids`; an unknown name falls through.  With
no tool call, or an unknown name, the reply is the text content or the
fixed fallback. -/
def get_completion (msg : AssistantMessage) (fs : FileState) :
    Except String String :=
  match msg.tool_calls with
  | [] => .ok (contentOr msg.content)
  | tc :: _ =>
    match tc.arguments with
    | none => .error "JSONDecodeError"
    | some function_args =>
      match load_documents fs with
      | .error e => .error e
      | .ok documents =>
        if tc.name == "show_document_summary" then
          match dictGet function_args "ids" (.jarr []) with
          | .error e => .error e
          | .ok idsVal =>
            match pyIter idsVal with
            | .error e => .error e
            | .ok ids =>
              .ok (pyStrip (ids.foldl (fun r i => r ++ summaryEntry documents i) ""))
        else if tc.name == "show_document_table" then
          match dictGet function_args "ids" (.jarr []) with
          | .error e => .error e
          | .ok idsVal =>
            if pyTruthy idsVal then
              match pyFilterMem documents idsVal with
              | .error e => .error e
              | .ok filtered => .ok (show_document_table filtered)
            else .ok (show_document_table documents)
        else .ok (contentOr msg.content)

/-- Count of newline characters in a string; a table string with k data
rows and the header pair holds k + 2 of them. -/
def nlCount (s : String) : Nat :=
  s.data.count '\n'

/-- The line contributed by one optional field of
`show_document_summary`: the label literal of the field followed by the value
and a blank line when the field is truthy, nothing when it is `None` or
the empty string. -/
def optLine (labelPre : String) : Option String → String
| some s => if s == "" then "" else labelPre ++ s ++ "\n\n"
| none => ""

/-! ### Helper lemmas -/

theorem str_append_assoc (a b c : String) : a ++ b ++ c = a ++ (b ++ c) := by
  apply String.ext
  simp [String.data_append, List.append_assoc]

theorem str_empty_append (s : String) : "" ++ s = s := by
  apply String.ext
  simp [String.data_append]

theorem nlCount_append (a b : String) :
    nlCount (a ++ b) = nlCount a + nlCount b := by
  simp [nlCount, String.data_append, List.count_append]

theorem le_foldl_max (l : List Int) (a : Int) : a ≤ l.foldl max a := by
  induction l generalizing a with
  | nil => exact le_refl a
  | cons y ys ih =>
    calc a ≤ max a y := le_max_left a y
    _ ≤ ys.foldl max (max a y) := ih (max a y)

theorem mem_le_foldl_max (l : List Int) (a x : Int) :
    x ∈ l → x ≤ l.foldl max a := by
  induction l generalizing a with
  | nil => intro hx; cases hx
  | cons y ys ih =>
    intro hx
    rcases List.mem_cons.mp hx with h | h
    · subst h
      calc x ≤ max a x := le_max_right a x
      _ ≤ ys.foldl max (max a x) := le_foldl_max ys (max a x)
    · exact ih (max a y) h

theorem mem_le_pyMaxDefault (l : List Int) (d x : Int) (hx : x ∈ l) :
    x ≤ pyMaxDefault d l := by
  cases l with
  | nil => cases hx
  | cons y ys =>
    rcases List.mem_cons.mp hx with h | h
    · subst h; exact le_foldl_max ys x
    · exact mem_le_foldl_max ys y x h

theorem pyMaxDefault_append_cons (d x y : Int) (ys : List Int) :
    pyMaxDefault d ((y :: ys) ++ [x]) = max (pyMaxDefault d (y :: ys)) x := by
  simp [pyMaxDefault, List.foldl_append]

theorem pyMaxDefault_snoc_next (documents : List RFPDocument) :
    pyMaxDefault 0
        (documents.filterMap RFPDocument.id ++ [get_next_id documents])
      = get_next_id documents := by
  cases hl : documents.filterMap RFPDocument.id with
  | nil => rfl
  | cons y ys =>
    rw [pyMaxDefault_append_cons]
    have hne : documents.isEmpty = false := by
      cases documents with
      | nil => simp at hl
      | cons a as => rfl
    have hval : get_next_id documents = pyMaxDefault 0 (y :: ys) + 1 := by
      simp only [get_next_id, hne, Bool.false_eq_true, if_false, hl]
    rw [hval]
    apply max_eq_right
    omega

/-! ### C1 -/

/-- C1: the id handed out by `get_next_id` is always
`1 + max(existing ids, default 0)`; it strictly exceeds every id already
present in the store (so ids assigned along any append-only sequence are
strictly increasing and never repeat), appending a record carrying the
assigned id bumps the next id by exactly one, and the empty (cleared)
store restarts numbering at 1. -/
theorem get_next_id_spec :
    (∀ documents : List RFPDocument,
      get_next_id documents =
        1 + pyMaxDefault 0 (documents.filterMap RFPDocument.id))
    ∧ (∀ (documents : List RFPDocument) (d : RFPDocument) (i : Int),
        d ∈ documents → d.id = some i → i < get_next_id documents)
    ∧ (∀ (documents : List RFPDocument) (r : RFPDocument),
        r.id = some (get_next_id documents) →
        get_next_id (documents ++ [r]) = get_next_id documents + 1)
    ∧ get_next_id [] = 1 := by
  have hmono : ∀ (documents : List RFPDocument) (d : RFPDocument) (i : Int),
      d ∈ documents → d.id = some i → i < get_next_id documents := by
    intro documents d i hmem hid
    have hne : documents.isEmpty = false := by
      cases documents with
      | nil => cases hmem
      | cons a as => rfl
    have hi : i ∈ documents.filterMap RFPDocument.id :=
      List.mem_filterMap.mpr ⟨d, hmem, hid⟩
    have hle : i ≤ pyMaxDefault 0 (documents.filterMap RFPDocument.id) :=
      mem_le_pyMaxDefault _ 0 i hi
    simp only [get_next_id, hne, Bool.false_eq_true, if_false]
    omega
  refine ⟨?_, hmono, ?_, rfl⟩
  · intro documents
    cases documents with
    | nil => rfl
    | cons a as =>
      simp only [get_next_id, List.isEmpty_cons, Bool.false_eq_true, if_false]
      omega
  · intro documents r hr
    have hids : (documents ++ [r]).filterMap RFPDocument.id =
        documents.filterMap RFPDocument.id ++ [get_next_id documents] := by
      simp [List.filterMap_append, hr]
    have hne : (documents ++ [r]).isEmpty = false := by
      cases documents <;> rfl
    calc get_next_id (documents ++ [r])
        = pyMaxDefault 0 ((documents ++ [r]).filterMap RFPDocument.id) + 1 := by
          simp only [get_next_id, hne, Bool.false_eq_true, if_false]
      _ = get_next_id documents + 1 := by
          rw [hids, pyMaxDefault_snoc_next]

/-- Witness for C1 at a concrete store: the id 1 held by the single
record is strictly below the next assigned id, and appending the record
that receives id 2 moves the next id to 3. -/
theorem get_next_id_spec_witness :
    ((1 : Int) <
      get_next_id [⟨some 1, "A", "B", none, none, none, none, none⟩])
    ∧ get_next_id
        ([⟨some 1, "A", "B", none, none, none, none, none⟩] ++
          [⟨some 2, "C", "D", none, none, none, none, none⟩]) =
      get_next_id [⟨some 1, "A", "B", none, none, none, none, none⟩] + 1 := by
  constructor
  · exact get_next_id_spec.2.1
      [⟨some 1, "A", "B", none, none, none, none, none⟩]
      ⟨some 1, "A", "B", none, none, none, none, none⟩ 1
      (List.mem_singleton.mpr rfl) rfl
  · exact get_next_id_spec.2.2.1
      [⟨some 1, "A", "B", none, none, none, none, none⟩]
      ⟨some 2, "C", "D", none, none, none, none, none⟩ (by decide)

/-! ### C2 -/

theorem docOfJson_dumpDoc (d : RFPDocument) : docOfJson (dumpDoc d) = .ok d := by
  rcases d with ⟨id, title, company, de, re, co, dl, bu⟩
  cases id <;> cases de <;> cases re <;> cases co <;> cases dl <;> cases bu <;> rfl

theorem loadList_map_dumpDoc (documents : List RFPDocument) :
    loadList (documents.map dumpDoc) = .ok documents := by
  induction documents with
  | nil => rfl
  | cons d ds ih =>
    simp only [loadList, List.map_cons, docOfJson_dumpDoc, ih]
    rfl

theorem load_save_roundtrip (documents : List RFPDocument) :
    load_documents (.content (save_documents documents)) = .ok documents := by
  simp [load_documents, save_documents, loadList_map_dumpDoc]

/-- C2: re-loading the exact JSON document written by `save_documents`
reproduces every record and every field; the serialized form of each
record always carries all eight keys in declaration order, with each
absent optional field written as an explicit `null` value rather than an
omitted key. -/
theorem save_load_roundtrip_spec :
    (∀ documents : List RFPDocument,
      load_documents (.content (save_documents documents)) = .ok documents)
    ∧ (∀ d : RFPDocument, jsonKeys (dumpDoc d) =
        ["id", "title", "company", "description", "requirements",
         "contact", "deadline", "budget"])
    ∧ (∀ d : RFPDocument,
        (d.id = none → jlookup (dumpDoc d) "id" = some .jnull)
        ∧ (d.description = none →
            jlookup (dumpDoc d) "description" = some .jnull)
        ∧ (d.requirements = none →
            jlookup (dumpDoc d) "requirements" = some .jnull)
        ∧ (d.contact = none → jlookup (dumpDoc d) "contact" = some .jnull)
        ∧ (d.deadline = none → jlookup (dumpDoc d) "deadline" = some .jnull)
        ∧ (d.budget = none → jlookup (dumpDoc d) "budget" = some .jnull)) := by
  refine ⟨load_save_roundtrip, fun d => rfl, fun d => ?_⟩
  refine ⟨fun h => ?_, fun h => ?_, fun h => ?_, fun h => ?_, fun h => ?_,
    fun h => ?_⟩ <;>
    simp [jlookup, jget, dumpDoc, h, optIntJson, optStrJson]

/-- Witness for C2: a record with every optional field absent and one
with every field present both survive the save/load round trip, and the
all-absent record serializes its missing deadline as an explicit null. -/
theorem save_load_roundtrip_spec_witness :
    load_documents (.content (save_documents
        [⟨none, "T", "C", none, none, none, none, none⟩,
         ⟨some 3, "U", "D", some "d", some "r", some "c", some "dl",
           some "b"⟩])) =
      .ok [⟨none, "T", "C", none, none, none, none, none⟩,
         ⟨some 3, "U", "D", some "d", some "r", some "c", some "dl",
           some "b"⟩]
    ∧ jlookup (dumpDoc ⟨none, "T", "C", none, none, none, none, none⟩)
        "deadline" = some .jnull := by
  exact ⟨save_load_roundtrip_spec.1 _,
    (save_load_roundtrip_spec.2.2
      ⟨none, "T", "C", none, none, none, none, none⟩).2.2.2.2.1 rfl⟩

/-! ### C3 -/

/-- C3 counterexample: a persisted state that is perfectly readable JSON
but not a list of valid records — here a one-element list whose object
lacks the required `title` — makes `load_documents` raise (pydantic
`ValidationError` is not in the `except` clause), instead of degrading
to the empty sequence as the claim requires for corrupt state of any
kind. -/
theorem load_documents_raises_on_invalid_record :
    load_documents (.content (.jarr [.jobj [("company", .jstr "X")]]))
      = .error "ValidationError"
    ∧ load_documents (.content (.jarr [.jint 1])) = .error "TypeError" := by
  exact ⟨rfl, rfl⟩

theorem loadList_error_of_mem (l : List Json) :
    (∃ j ∈ l, ∃ e, docOfJson j = .error e) →
    ∃ e, loadList l = .error e := by
  induction l with
  | nil =>
    rintro ⟨j, hj, _⟩
    cases hj
  | cons x xs ih =>
    rintro ⟨j, hj, e, he⟩
    rcases List.mem_cons.mp hj with h | h
    · subst h
      exact ⟨e, by simp only [loadList, he]; rfl⟩
    · cases hx : docOfJson x with
      | error e2 => exact ⟨e2, by simp only [loadList, hx]; rfl⟩
      | ok d =>
        obtain ⟨e3, he3⟩ := ih ⟨j, h, e, he⟩
        exact ⟨e3, by simp only [loadList, hx, he3]; rfl⟩

/-- C3 amended: `load_documents` returns the empty sequence, raising
nothing, when the file is missing, when its content is not decodable as
JSON (the two cases its `except` clause covers), and also when the
decoded value is an empty object or an empty string (iterating those
yields no elements, so the comprehension is empty); a well-formed saved
state loads fully.  Every other corrupt-but-decodable state raises an
uncaught error instead of degrading: a decoded list containing any
element that fails record validation, a nonempty object or nonempty
string (whose first iterated element is not a mapping), and any scalar
(not iterable). -/
theorem load_documents_failsoft_amended :
    load_documents .missing = .ok []
    ∧ load_documents .invalidJson = .ok []
    ∧ (∀ documents : List RFPDocument,
        load_documents (.content (save_documents documents)) = .ok documents)
    ∧ load_documents (.content (.jobj [])) = .ok []
    ∧ load_documents (.content (.jstr "")) = .ok []
    ∧ (∀ l : List Json, (∃ j ∈ l, ∃ e, docOfJson j = .error e) →
        ∃ e, load_documents (.content (.jarr l)) = .error e)
    ∧ (∀ kvs : List (String × Json), kvs ≠ [] →
        load_documents (.content (.jobj kvs)) = .error "TypeError")
    ∧ (∀ s : String, s ≠ "" →
        load_documents (.content (.jstr s)) = .error "TypeError")
    ∧ (∀ n : Int, load_documents (.content (.jint n)) = .error "TypeError")
    ∧ (∀ b : Bool, load_documents (.content (.jbool b)) = .error "TypeError")
    ∧ load_documents (.content .jnull) = .error "TypeError" := by
  refine ⟨rfl, rfl, load_save_roundtrip, rfl, rfl, ?_, ?_, ?_,
    fun n => rfl, fun b => rfl, rfl⟩
  · intro l hl
    exact loadList_error_of_mem l hl
  · intro kvs hk
    cases kvs with
    | nil => exact absurd rfl hk
    | cons a as => rfl
  · intro s hs
    have hb : (s == "") = false := beq_eq_false_iff_ne.mpr hs
    simp [load_documents, hb]

/-- Witness for C3 at concrete corrupt states: a list with a non-mapping
element, a nonempty object and a nonempty string all raise. -/
theorem load_documents_failsoft_amended_witness :
    (∃ e, load_documents (.content (.jarr [.jint 1])) = .error e)
    ∧ load_documents (.content (.jobj [("a", .jnull)])) = .error "TypeError"
    ∧ load_documents (.content (.jstr "ab")) = .error "TypeError" := by
  refine ⟨?_, ?_, ?_⟩
  · exact load_documents_failsoft_amended.2.2.2.2.2.1 [.jint 1]
      ⟨.jint 1, by simp, "TypeError", rfl⟩
  · exact load_documents_failsoft_amended.2.2.2.2.2.2.1 [("a", .jnull)]
      (by simp)
  · exact load_documents_failsoft_amended.2.2.2.2.2.2.2.1 "ab" (by decide)

/-! ### C8 -/

/-- C8 counterexample: `extract_rfp_info` returns the parsed structured
output of the model call unchanged, so when the model supplies a
populated `id` (here 7) the record returned by the Extractor carries
that id rather than an unpopulated one — nothing in the function clears
or enforces `id = None`. -/
theorem extract_rfp_info_id_cex :
    (extract_rfp_info ⟨some 7, "T", "C", none, none, none, none, none⟩).id
      = some 7 := by
  exact rfl

/-- C8 amended: the Extractor itself never assigns an id — it returns
the parsed model response unchanged, so its output id is exactly the
parsed one — and in the ingestion flow of app.py the id of the appended
record is overwritten with `get_next_id` over the current store, so the
stored id never originates from the Extractor. -/
theorem extract_rfp_info_id_amended :
    ∀ (parsed : RFPDocument) (documents : List RFPDocument),
      extract_rfp_info parsed = parsed
      ∧ ((process_upload documents parsed).2).id
          = some (get_next_id documents)
      ∧ (process_upload documents parsed).1
          = documents ++ [(process_upload documents parsed).2] := by
  intro parsed documents
  exact ⟨rfl, rfl, rfl⟩

/-! ### C10 -/

/-- C10: an empty-string field renders exactly like an absent one:
`show_document_summary` produces the same text whether an optional field
is the empty string or `None`, and the table cells show the `N/A`
placeholder for an empty-string title, company or deadline and for an
unassigned (`None`) id. -/
theorem empty_string_renders_as_absent :
    ∀ d : RFPDocument,
      (d.id = none → idCell d = "N/A")
      ∧ (d.title = "" → titleCell d = "N/A")
      ∧ (d.company = "" → companyCell d = "N/A")
      ∧ (d.deadline = some "" → deadlineCell d = "N/A")
      ∧ (d.deadline = none → deadlineCell d = "N/A")
      ∧ (d.description = some "" →
          show_document_summary d
            = show_document_summary { d with description := none })
      ∧ (d.requirements = some "" →
          show_document_summary d
            = show_document_summary { d with requirements := none })
      ∧ (d.contact = some "" →
          show_document_summary d
            = show_document_summary { d with contact := none })
      ∧ (d.deadline = some "" →
          show_document_summary d
            = show_document_summary { d with deadline := none })
      ∧ (d.budget = some "" →
          show_document_summary d
            = show_document_summary { d with budget := none }) := by
  intro d
  refine ⟨fun h => ?_, fun h => ?_, fun h => ?_, fun h => ?_, fun h => ?_,
    fun h => ?_, fun h => ?_, fun h => ?_, fun h => ?_, fun h => ?_⟩ <;>
    simp [idCell, titleCell, companyCell, deadlineCell,
      show_document_summary, truthyOptStr, h]

/-- Witness for C10 at a concrete record with unassigned id, empty
title, company and deadline, and an empty-string description. -/
theorem empty_string_renders_as_absent_witness :
    idCell ⟨none, "", "", some "", none, none, some "", none⟩ = "N/A"
    ∧ titleCell ⟨none, "", "", some "", none, none, some "", none⟩ = "N/A"
    ∧ companyCell ⟨none, "", "", some "", none, none, some "", none⟩ = "N/A"
    ∧ deadlineCell ⟨none, "", "", some "", none, none, some "", none⟩ = "N/A"
    ∧ show_document_summary ⟨none, "", "", some "", none, none, some "", none⟩
        = show_document_summary ⟨none, "", "", none, none, none, some "", none⟩ := by
  refine ⟨?_, ?_, ?_, ?_, ?_⟩
  · exact (empty_string_renders_as_absent _).1 rfl
  · exact (empty_string_renders_as_absent _).2.1 rfl
  · exact (empty_string_renders_as_absent _).2.2.1 rfl
  · exact (empty_string_renders_as_absent _).2.2.2.1 rfl
  · exact (empty_string_renders_as_absent _).2.2.2.2.2.1 rfl

/-! ### C7 -/

theorem str_append_empty (s : String) : s ++ "" = s := by
  apply String.ext
  simp [String.data_append]

theorem foldl_append_eq_strConcat {α : Type} (f : α → String)
    (l : List α) (init : String) :
    l.foldl (fun r i => r ++ f i) init = init ++ strConcat (l.map f) := by
  induction l generalizing init with
  | nil => simp [strConcat, str_append_empty]
  | cons x xs ih =>
    simp only [List.foldl_cons, List.map_cons, strConcat]
    rw [ih, str_append_assoc]

theorem optAppend (p labelPre : String) (v : Option String) :
    (if truthyOptStr v then p ++ labelPre ++ optStrVal v ++ "\n\n" else p)
      = p ++ optLine labelPre v := by
  cases v with
  | none => simp [truthyOptStr, optLine, str_append_empty]
  | some s =>
    cases hs : s == "" <;>
      simp [truthyOptStr, optLine, hs, optStrVal, str_append_assoc,
        str_append_empty]

theorem show_document_summary_decomp (d : RFPDocument) :
    show_document_summary d
      = "### " ++ d.title ++ "\n\n" ++ "**Company:** " ++ d.company ++ "\n\n"
        ++ optLine "**Description:** " d.description
        ++ optLine "**Requirements:** " d.requirements
        ++ optLine "**Contact:** " d.contact
        ++ optLine "**Deadline:** " d.deadline
        ++ optLine "**Budget:** " d.budget := by
  simp only [show_document_summary]
  rw [optAppend, optAppend, optAppend, optAppend, optAppend]

theorem dictGet_ids (v dflt : Json) :
    dictGet (.jobj [("ids", v)]) "ids" dflt = .ok v := rfl

/-- C7 counterexample: a record whose `description` is present but equal
to the empty string is summarized with no description line at all — the
block is identical to the one for a record with no description — so the
summary does not emit every present optional field as the claim states. -/
theorem summary_present_empty_field_cex :
    show_document_summary ⟨some 1, "T", "C", some "", none, none, none, none⟩
      = "### T\n\n**Company:** C\n\n"
    ∧ (⟨some 1, "T", "C", some "", none, none, none, none⟩ :
        RFPDocument).description ≠ none := by
  exact ⟨rfl, by simp⟩

/-- C7 amended: the summarize tool processes the requested ids in the
order given and never raises: the reply is the concatenation, in input
order, of one entry per id — the formatted block of the record (title,
company, and each present non-empty optional field, omitting absent and
empty-string ones) followed by the `---` separator when a record with
that id exists, or an explicit not-found line for that id — with the
final `.strip()` applied. -/
theorem summarize_spec_amended :
    (∀ (fs : FileState) (documents : List RFPDocument) (idsl : List Json)
        (content : Option String),
      load_documents fs = .ok documents →
      get_completion ⟨[⟨"show_document_summary",
          some (.jobj [("ids", .jarr idsl)])⟩], content⟩ fs
        = .ok (pyStrip (strConcat (idsl.map (summaryEntry documents)))))
    ∧ (∀ (documents : List RFPDocument) (i : Json),
        documents.find? (fun d => pyEqIdJson d.id i) = none →
        summaryEntry documents i
          = "Document with ID " ++ pyStr i ++ " not found.\n\n")
    ∧ (∀ (documents : List RFPDocument) (i : Json) (d : RFPDocument),
        documents.find? (fun d => pyEqIdJson d.id i) = some d →
        summaryEntry documents i = show_document_summary d ++ "\n---\n\n")
    ∧ (∀ d : RFPDocument,
        show_document_summary d
          = "### " ++ d.title ++ "\n\n" ++ "**Company:** " ++ d.company
            ++ "\n\n"
            ++ optLine "**Description:** " d.description
            ++ optLine "**Requirements:** " d.requirements
            ++ optLine "**Contact:** " d.contact
            ++ optLine "**Deadline:** " d.deadline
            ++ optLine "**Budget:** " d.budget) := by
  refine ⟨?_, ?_, ?_, show_document_summary_decomp⟩
  · intro fs documents idsl content h
    unfold get_completion
    simp only [h, dictGet_ids, beq_self_eq_true, if_true, pyIter]
    rw [foldl_append_eq_strConcat, str_empty_append]
  · intro documents i h
    simp [summaryEntry, h]
  · intro documents i d h
    simp [summaryEntry, h]

/-- Witness for C7: a concrete two-id request against a one-record store
produces the found block and the not-found line, joined in order and
stripped. -/
theorem summarize_spec_amended_witness :
    get_completion ⟨[⟨"show_document_summary",
        some (.jobj [("ids", .jarr [.jint 1, .jint 9])])⟩], none⟩
      (.content (save_documents [⟨some 1, "T", "C", none, none, none, none,
        none⟩]))
      = .ok (pyStrip (strConcat ([Json.jint 1, Json.jint 9].map
          (summaryEntry [⟨some 1, "T", "C", none, none, none, none, none⟩]))))
    ∧ summaryEntry [⟨some 1, "T", "C", none, none, none, none, none⟩]
        (.jint 9) = "Document with ID " ++ pyStr (.jint 9)
          ++ " not found.\n\n"
    ∧ summaryEntry [⟨some 1, "T", "C", none, none, none, none, none⟩]
        (.jint 1) = show_document_summary
          ⟨some 1, "T", "C", none, none, none, none, none⟩ ++ "\n---\n\n" := by
  refine ⟨?_, ?_, ?_⟩
  · exact summarize_spec_amended.1 _ _ _ _ (load_save_roundtrip _)
  · exact summarize_spec_amended.2.1 _ _ (by decide)
  · exact summarize_spec_amended.2.2.1 _ _ _ (by decide)

/-! ### C4 -/

theorem pyEqIdJson_jstr (oi : Option Int) (s : String) :
    pyEqIdJson oi (.jstr s) = false := by
  cases oi <;> rfl

theorem pyFilterMem_str_only (documents : List RFPDocument) (s : String) :
    pyFilterMem documents (.jarr [.jstr s]) = .ok [] := by
  induction documents with
  | nil => rfl
  | cons d ds ih =>
    have hin : pyIn d.id (.jarr [.jstr s]) = .ok false := by
      simp [pyIn, pyEqIdJson_jstr]
    simp only [pyFilterMem, hin, ih]
    rfl

theorem find?_jstr_none (documents : List RFPDocument) (s : String) :
    documents.find? (fun d => pyEqIdJson d.id (.jstr s)) = none := by
  rw [List.find?_eq_none]
  intro d _
  simp [pyEqIdJson_jstr]

/-- C4 counterexample: a tool invocation whose `ids` argument holds the
non-integer `"x"` — a schema mismatch, since both tools declare `ids` as
an array of integers — is dispatched without any validation: the summary
tool replies with an ordinary not-found line and the table tool with the
ordinary empty-table message, exactly as for a valid-but-unmatched
integer id; no `ToolArgumentError` is produced (none exists in the
code), so the claimed validate-and-surface behaviour is absent. -/
theorem no_tool_argument_error_cex :
    get_completion ⟨[⟨"show_document_summary",
        some (.jobj [("ids", .jarr [.jstr "x"])])⟩], none⟩ .missing
      = .ok "Document with ID x not found."
    ∧ get_completion ⟨[⟨"show_document_table",
        some (.jobj [("ids", .jarr [.jstr "x"])])⟩], none⟩ .missing
      = .ok "No documents available."
    ∧ get_completion ⟨[⟨"show_document_summary",
        some (.jobj [("ids", .jarr [.jint 9])])⟩], none⟩ .missing
      = .ok "Document with ID 9 not found." := by
  exact ⟨rfl, rfl, rfl⟩

theorem notfound_line_strip (s : String) :
    pyStrip ("Document with ID " ++ s ++ " not found.\n\n")
      = "Document with ID " ++ s ++ " not found." := by
  apply String.ext
  have hD : pyWs 'D' = false := by decide
  have hnl : pyWs '\n' = true := by decide
  have hdot : pyWs '.' = false := by decide
  simp [pyStrip, String.data_append, List.append_assoc, List.reverse_append,
    List.dropWhile_cons, hD, hnl, hdot]

/-- C4 amended: `get_completion` performs no schema validation of tool
arguments and no `ToolArgumentError` exists.  Ids that violate the
declared integer schema are handled only by the plain Python `==`
comparison during dispatch: a string id matches no stored record (the
summary tool emits its ordinary not-found line for it and the table
tool silently filters it, giving the empty-table message when nothing
matches), while a boolean id matches a record whose id equals its
numeric value (`1 == True` in Python) and is served as a normal block.
Malformed arguments raise ordinary process-level exceptions instead of
any surfaced validation error: an argument string that is not valid
JSON raises `JSONDecodeError` before dispatch, decoded arguments that
are not a dict raise `AttributeError` at `.get`, and a non-iterable
`ids` value raises `TypeError` at the loop. -/
theorem tool_args_unvalidated_amended :
    (∀ (fs : FileState) (documents : List RFPDocument)
        (content : Option String) (s : String),
      load_documents fs = .ok documents →
      get_completion ⟨[⟨"show_document_summary",
          some (.jobj [("ids", .jarr [.jstr s])])⟩], content⟩ fs
        = .ok ("Document with ID " ++ s ++ " not found."))
    ∧ (∀ (fs : FileState) (documents : List RFPDocument)
        (content : Option String) (s : String),
      load_documents fs = .ok documents →
      get_completion ⟨[⟨"show_document_table",
          some (.jobj [("ids", .jarr [.jstr s])])⟩], content⟩ fs
        = .ok "No documents available.")
    ∧ pyEqIdJson (some 1) (.jbool true) = true
    ∧ (∀ (fs : FileState) (documents : List RFPDocument)
        (content : Option String) (d : RFPDocument),
      load_documents fs = .ok documents →
      documents.find? (fun x => pyEqIdJson x.id (.jbool true)) = some d →
      get_completion ⟨[⟨"show_document_summary",
          some (.jobj [("ids", .jarr [.jbool true])])⟩], content⟩ fs
        = .ok (pyStrip (show_document_summary d ++ "\n---\n\n")))
    ∧ (∀ (fs : FileState) (name : String) (content : Option String),
        get_completion ⟨[⟨name, none⟩], content⟩ fs
          = .error "JSONDecodeError")
    ∧ (∀ (fs : FileState) (documents : List RFPDocument)
        (content : Option String) (j : Json),
      load_documents fs = .ok documents →
      (∀ kvs : List (String × Json), j ≠ .jobj kvs) →
      get_completion ⟨[⟨"show_document_summary", some j⟩], content⟩ fs
        = .error "AttributeError")
    ∧ (∀ (fs : FileState) (documents : List RFPDocument)
        (content : Option String) (v : Json),
      load_documents fs = .ok documents →
      pyIter v = .error "TypeError" →
      get_completion ⟨[⟨"show_document_summary",
          some (.jobj [("ids", v)])⟩], content⟩ fs
        = .error "TypeError") := by
  refine ⟨?_, ?_, rfl, ?_, ?_, ?_, ?_⟩
  · intro fs documents content s h
    unfold get_completion
    simp only [h, dictGet_ids, beq_self_eq_true, if_true, pyIter,
      List.foldl_cons, List.foldl_nil, summaryEntry, find?_jstr_none, pyStr,
      str_empty_append, notfound_line_strip]
  · intro fs documents content s h
    unfold get_completion
    have hn : (("show_document_table" : String)
        == "show_document_summary") = false := rfl
    simp only [h, dictGet_ids, hn, Bool.false_eq_true, if_false,
      beq_self_eq_true, if_true, pyFilterMem_str_only]
    rfl
  · intro fs documents content d h hfind
    unfold get_completion
    simp only [h, dictGet_ids, beq_self_eq_true, if_true, pyIter,
      List.foldl_cons, List.foldl_nil, summaryEntry, hfind,
      str_empty_append]
  · intro fs name content
    rfl
  · intro fs documents content j h hj
    have hd : dictGet j "ids" (.jarr []) = .error "AttributeError" := by
      cases j with
      | jobj kvs => exact absurd rfl (hj kvs)
      | jnull => rfl
      | jbool b => rfl
      | jint n => rfl
      | jstr t => rfl
      | jarr l => rfl
    unfold get_completion
    simp only [h, hd, beq_self_eq_true, if_true]
  · intro fs documents content v h hv
    unfold get_completion
    simp only [h, dictGet_ids, beq_self_eq_true, if_true, hv]

/-- Witness for C4: all paths at concrete inputs — unmatched string id,
matching boolean id, non-dict arguments, non-iterable ids. -/
theorem tool_args_unvalidated_amended_witness :
    get_completion ⟨[⟨"show_document_summary",
        some (.jobj [("ids", .jarr [.jstr "x"])])⟩], none⟩
      (.content (save_documents
        [⟨some 1, "T", "C", none, none, none, none, none⟩]))
      = .ok ("Document with ID " ++ "x" ++ " not found.")
    ∧ get_completion ⟨[⟨"show_document_table",
        some (.jobj [("ids", .jarr [.jstr "x"])])⟩], none⟩
      (.content (save_documents
        [⟨some 1, "T", "C", none, none, none, none, none⟩]))
      = .ok "No documents available."
    ∧ get_completion ⟨[⟨"show_document_summary",
        some (.jobj [("ids", .jarr [.jbool true])])⟩], none⟩
      (.content (save_documents
        [⟨some 1, "T", "C", none, none, none, none, none⟩]))
      = .ok (pyStrip (show_document_summary
          ⟨some 1, "T", "C", none, none, none, none, none⟩ ++ "\n---\n\n"))
    ∧ get_completion ⟨[⟨"show_document_summary", some (.jarr [])⟩], none⟩
        .missing = .error "AttributeError"
    ∧ get_completion ⟨[⟨"show_document_summary",
        some (.jobj [("ids", .jint 5)])⟩], none⟩ .missing
      = .error "TypeError" := by
  refine ⟨?_, ?_, ?_, ?_, ?_⟩
  · exact tool_args_unvalidated_amended.1 _ _ _ "x" (load_save_roundtrip _)
  · exact tool_args_unvalidated_amended.2.1 _ _ _ "x" (load_save_roundtrip _)
  · exact tool_args_unvalidated_amended.2.2.2.1 _ _ _ _
      (load_save_roundtrip _) (by decide)
  · exact tool_args_unvalidated_amended.2.2.2.2.2.1 _ _ _ _ rfl
      (fun kvs h => Json.noConfusion h)
  · exact tool_args_unvalidated_amended.2.2.2.2.2.2 _ _ _ _ rfl rfl

/-! ### C5 -/

theorem show_document_table_structure (docs : List RFPDocument)
    (h : docs ≠ []) :
    show_document_table docs = tableHeader ++ strConcat (docs.map rowFor) := by
  have hne : docs.isEmpty = false := by
    cases docs with
    | nil => exact absurd rfl h
    | cons a as => rfl
  simp only [show_document_table, hne, Bool.false_eq_true, if_false]
  exact foldl_append_eq_strConcat rowFor docs tableHeader

theorem nlCount_rowFor (d : RFPDocument)
    (h : nlCount (idCell d) = 0 ∧ nlCount (titleCell d) = 0
      ∧ nlCount (companyCell d) = 0 ∧ nlCount (deadlineCell d) = 0) :
    nlCount (rowFor d) = 1 := by
  obtain ⟨h1, h2, h3, h4⟩ := h
  have c1 : nlCount "| " = 0 := by decide
  have c2 : nlCount " | " = 0 := by decide
  have c3 : nlCount " |\n" = 1 := by decide
  simp [rowFor, nlCount_append, h1, h2, h3, h4, c1, c2, c3]

theorem nlCount_strConcat_rows (docs : List RFPDocument)
    (h : ∀ d ∈ docs, nlCount (idCell d) = 0 ∧ nlCount (titleCell d) = 0
      ∧ nlCount (companyCell d) = 0 ∧ nlCount (deadlineCell d) = 0) :
    nlCount (strConcat (docs.map rowFor)) = docs.length := by
  induction docs with
  | nil => rfl
  | cons d ds ih =>
    simp only [List.map_cons, strConcat, nlCount_append, List.length_cons]
    rw [nlCount_rowFor d (h d (List.mem_cons_self d ds)),
      ih (fun x hx => h x (List.mem_cons_of_mem d hx))]
    omega

/-- C5 counterexample: over a store with N = 0 records, tabulating does
not return a table with zero data rows plus the header/separator pair —
it returns the fixed message `No documents available.`, which contains
no table lines at all. -/
theorem tabulate_empty_store_cex :
    show_document_table ([] : List RFPDocument) = "No documents available."
    ∧ nlCount (show_document_table ([] : List RFPDocument))
        ≠ ([] : List RFPDocument).length + 2 := by
  exact ⟨rfl, by decide⟩

/-- C5 amended: over a NONEMPTY store with N records (whose rendered
cells are newline-free, as every realistic field is), tabulating all
records yields the header/separator pair followed by exactly N data
rows — N + 2 lines in total; a record with no deadline shows the `N/A`
placeholder in its deadline cell, never a blank; and dispatching the
table tool with an empty id list applies `show_document_table` to the
whole store.  An empty store instead yields the fixed
`No documents available.` message (see the counterexample). -/
theorem tabulate_rows_amended :
    (∀ docs : List RFPDocument, docs ≠ [] →
      show_document_table docs = tableHeader ++ strConcat (docs.map rowFor))
    ∧ (∀ docs : List RFPDocument, docs ≠ [] →
        (∀ d ∈ docs, nlCount (idCell d) = 0 ∧ nlCount (titleCell d) = 0
          ∧ nlCount (companyCell d) = 0 ∧ nlCount (deadlineCell d) = 0) →
        nlCount (show_document_table docs) = docs.length + 2)
    ∧ (∀ d : RFPDocument, d.deadline = none →
        rowFor d = "| " ++ idCell d ++ " | " ++ titleCell d ++ " | "
          ++ companyCell d ++ " | " ++ "N/A" ++ " |\n")
    ∧ (∀ (fs : FileState) (documents : List RFPDocument)
        (content : Option String),
        load_documents fs = .ok documents →
        get_completion ⟨[⟨"show_document_table",
            some (.jobj [("ids", .jarr [])])⟩], content⟩ fs
          = .ok (show_document_table documents)) := by
  refine ⟨show_document_table_structure, ?_, ?_, ?_⟩
  · intro docs hne hcells
    rw [show_document_table_structure docs hne, nlCount_append,
      nlCount_strConcat_rows docs hcells]
    have hh : nlCount tableHeader = 2 := by decide
    omega
  · intro d hd
    simp [rowFor, deadlineCell, hd]
  · intro fs documents content h
    unfold get_completion
    rw [h]
    rfl

/-- Witness for C5 at a concrete two-record store whose second record
has no deadline. -/
theorem tabulate_rows_amended_witness :
    nlCount (show_document_table
        [⟨some 1, "T", "C", none, none, none, some "Friday", none⟩,
         ⟨some 2, "U", "D", none, none, none, none, none⟩]) = 2 + 2
    ∧ rowFor ⟨some 2, "U", "D", none, none, none, none, none⟩
        = "| " ++ idCell ⟨some 2, "U", "D", none, none, none, none, none⟩
          ++ " | " ++ titleCell ⟨some 2, "U", "D", none, none, none, none, none⟩
          ++ " | " ++ companyCell ⟨some 2, "U", "D", none, none, none, none, none⟩
          ++ " | " ++ "N/A" ++ " |\n"
    ∧ get_completion ⟨[⟨"show_document_table",
          some (.jobj [("ids", .jarr [])])⟩], none⟩
        (.content (save_documents
          [⟨some 1, "T", "C", none, none, none, some "Friday", none⟩]))
        = .ok (show_document_table
          [⟨some 1, "T", "C", none, none, none, some "Friday", none⟩]) := by
  refine ⟨?_, ?_, ?_⟩
  · exact tabulate_rows_amended.2.1 _ (by decide) (by decide)
  · exact tabulate_rows_amended.2.2.1 _ rfl
  · exact tabulate_rows_amended.2.2.2 _ _ _ (load_save_roundtrip _)

/-! ### C6 -/

/-- C6: dispatching a `show_document_table` tool call with `ids=[2,5]`
against a store holding exactly the ids 1, 2, 3 replies with the table
over the single matching record (id 2): the reply is the header pair
plus the row of id 2 and nothing else — no row and no not-found report for
the unmatched id 5, which tabulate silently filters (in contrast to the
summarize branch, which emits an explicit not-found line per missing
id). -/
theorem tabulate_filters_unmatched :
    ∀ (d1 d2 d3 : RFPDocument) (fs : FileState) (content : Option String),
      d1.id = some 1 → d2.id = some 2 → d3.id = some 3 →
      load_documents fs = .ok [d1, d2, d3] →
      get_completion ⟨[⟨"show_document_table",
          some (.jobj [("ids", .jarr [.jint 2, .jint 5])])⟩], content⟩ fs
        = .ok (show_document_table [d2])
      ∧ show_document_table [d2] = tableHeader ++ rowFor d2 := by
  intro d1 d2 d3 fs content h1 h2 h3 h4
  have hin1 : pyIn d1.id (.jarr [.jint 2, .jint 5]) = .ok false := by
    rw [h1]; rfl
  have hin2 : pyIn d2.id (.jarr [.jint 2, .jint 5]) = .ok true := by
    rw [h2]; rfl
  have hin3 : pyIn d3.id (.jarr [.jint 2, .jint 5]) = .ok false := by
    rw [h3]; rfl
  have hf : pyFilterMem [d1, d2, d3] (.jarr [.jint 2, .jint 5])
      = .ok [d2] := by
    simp only [pyFilterMem, hin1, hin2, hin3]
    rfl
  constructor
  · unfold get_completion
    rw [h4]
    have hn : (("show_document_table" : String)
        == "show_document_summary") = false := rfl
    simp only [hn, Bool.false_eq_true, if_false, beq_self_eq_true, if_true,
      dictGet_ids, hf]
    rfl
  · have hne : ([d2] : List RFPDocument) ≠ [] := by simp
    rw [show_document_table_structure [d2] hne]
    simp [strConcat, str_append_empty]

/-- Witness for C6 at a concrete three-record store. -/
theorem tabulate_filters_unmatched_witness :
    get_completion ⟨[⟨"show_document_table",
        some (.jobj [("ids", .jarr [.jint 2, .jint 5])])⟩], none⟩
      (.content (save_documents
        [⟨some 1, "A", "CA", none, none, none, none, none⟩,
         ⟨some 2, "B", "CB", none, none, none, some "Fri", none⟩,
         ⟨some 3, "X", "CX", none, none, none, none, none⟩]))
      = .ok (show_document_table
        [⟨some 2, "B", "CB", none, none, none, some "Fri", none⟩]) := by
  exact (tabulate_filters_unmatched _ _ _ _ none rfl rfl rfl
    (load_save_roundtrip _)).1

/-! ### C9 -/

/-- C9 counterexample: a model response whose first tool invocation
names an undeclared function (`foo`) still has its raw argument string
fed to `json.loads` BEFORE the name is inspected, so when that string is
not valid JSON `get_completion` raises `JSONDecodeError` instead of
falling through to the text reply — the claim fails for such responses. -/
theorem unknown_tool_raises_cex :
    get_completion ⟨[⟨"foo", none⟩], some "hi"⟩ .missing
      = .error "JSONDecodeError" := by
  exact rfl

/-- C9 amended: for a model response whose first tool invocation names a
function other than the two declared tools and whose argument string
parses as JSON, and a store state whose load succeeds, `get_completion`
executes no tool and does not raise: control falls through to the direct
text content, with the fixed fallback `No response generated.` replacing
absent or empty content. -/
theorem unknown_tool_fallthrough_amended :
    (∀ (fs : FileState) (documents : List RFPDocument) (name : String)
        (args : Json) (content : Option String),
      load_documents fs = .ok documents →
      (name == "show_document_summary") = false →
      (name == "show_document_table") = false →
      get_completion ⟨[⟨name, some args⟩], content⟩ fs
        = .ok (contentOr content))
    ∧ contentOr none = "No response generated."
    ∧ contentOr (some "") = "No response generated."
    ∧ (∀ c : String, c ≠ "" → contentOr (some c) = c) := by
  refine ⟨?_, rfl, rfl, ?_⟩
  · intro fs documents name args content h hn1 hn2
    unfold get_completion
    rw [h]
    simp only [hn1, hn2, Bool.false_eq_true, if_false]
  · intro c hc
    have hb : (c == "") = false := by
      exact beq_eq_false_iff_ne.mpr hc
    simp [contentOr, hb]

/-- Witness for C9: the unknown tool name `foo` with well-formed (empty
object) JSON arguments against a concrete saved store falls through to
the fallback reply. -/
theorem unknown_tool_fallthrough_amended_witness :
    get_completion ⟨[⟨"foo", some (.jobj [])⟩], none⟩
      (.content (save_documents
        [⟨some 1, "T", "C", none, none, none, none, none⟩]))
      = .ok (contentOr none)
    ∧ contentOr (some "hi") = "hi" := by
  constructor
  · exact unknown_tool_fallthrough_amended.1 _ _ _ _ _
      (load_save_roundtrip _) rfl rfl
  · exact unknown_tool_fallthrough_amended.2.2.2 "hi" (by decide)
